import Mathlib

/-!
Shallow embedding of the oura-mcp forwarding layer.

The definitions mirror the Python source of the repository:
  * `src/oura_mcp/config.py`      (OuraConfig: token loading, saving, validation)
  * `src/oura_mcp/oura_client.py` (OuraClient: headers, refresh, request, pagination)
  * `src/oura_mcp/server.py`      (parse_date, format_response, tool functions)

Machine-level conventions of the embedding:
  * Python JSON values are modelled by `JsonVal` (floats are not needed by
    any claim and are omitted; numbers are `Int`).
  * `response.json()` is modelled by the `jsonBody : Option JsonVal` field of
    `HttpResponse`: `none` means the call raises `ValueError`.
  * The HTTP world is an oracle `HttpEnv : Nat → RequestData → SendOutcome`
    mapping the index of the HTTP call (per client) and the request data to
    either a response or a transport error (`httpx.RequestError`).
  * Python exceptions are the inductive `PyExc`; raising is modelled with
    `Except PyExc`.
  * Python truthiness of optional strings and JSON values is modelled by
    `truthyOpt` / `truthy`.
  * Where the source stores an arbitrary Python object but only ever observes
    its `str()` rendering (the `message` of `OuraAPIError`, tokens saved by
    the refresh flow), the embedding stores the `pyStr` rendering.
-/

namespace Oura

/-- JSON values as produced by Python json parsing (`response.json()`, `json.load`). -/
inductive JsonVal where
  | null
  | bool (b : Bool)
  | num (n : Int)
  | str (s : String)
  | arr (elts : List JsonVal)
  | obj (fields : List (String × JsonVal))

/-- First value bound to key `k` in an association list (Python dict lookup;
keys of dicts built by the model are unique). -/
def lookupField : List (String × JsonVal) → String → Option JsonVal
  | [], _ => none
  | (k', v) :: rest, k => if k' = k then some v else lookupField rest k

/-- Python truthiness of a JSON value. -/
def truthy : JsonVal → Bool
  | .null => false
  | .bool b => b
  | .num n => n != 0
  | .str s => s != ""
  | .arr l => !l.isEmpty
  | .obj fs => !fs.isEmpty

/-- Python truthiness of an optional string (None and "" are falsy). -/
def truthyOpt : Option String → Bool
  | none => false
  | some s => s != ""

/-- Python truthiness of the result of `dict.get` (None means key absent). -/
def truthyOptJson : Option JsonVal → Bool
  | none => false
  | some v => truthy v

/-- Python `repr()` of a JSON value (used for elements of containers).
Only the container cases of `pyStr` reach this; they are never evaluated
by the claims, so well-founded recursion is fine here. -/
def pyReprDeep (v : JsonVal) : String :=
  match v with
  | .null => "None"
  | .bool true => "True"
  | .bool false => "False"
  | .num n => toString n
  | .str s => "\x27" ++ s ++ "\x27"
  | .arr l => "[" ++ String.intercalate ", " (l.attach.map (fun x => pyReprDeep x.1)) ++ "]"
  | .obj fs =>
      "\x7b" ++ String.intercalate ", "
        (fs.attach.map (fun x => "\x27" ++ x.1.1 ++ "\x27: " ++ pyReprDeep x.1.2)) ++ "\x7d"
decreasing_by
  · have h := List.sizeOf_lt_of_mem x.2
    simp only [JsonVal.arr.sizeOf_spec]
    omega
  · have h := List.sizeOf_lt_of_mem x.2
    have h2 : sizeOf x.1.2 < sizeOf x.1 := by
      obtain ⟨a, b⟩ := x.1
      simp only [Prod.mk.sizeOf_spec]
      omega
    simp only [JsonVal.obj.sizeOf_spec]
    omega

/-- Python `str()` of a JSON value (f-string interpolation). -/
def pyStr : JsonVal → String
  | .null => "None"
  | .bool true => "True"
  | .bool false => "False"
  | .num n => toString n
  | .str s => s
  | .arr l => pyReprDeep (.arr l)
  | .obj fs => pyReprDeep (.obj fs)

example : pyStr (.str "abc") = "abc" := rfl
example : truthy (.str "") = false := rfl

/-- Python exceptions reaching the model's observation points.
`ouraAPIError` carries the constructor arguments of `OuraAPIError`
(the `detail` is kept as the raw Python object; `message` is stored as its
`str` rendering, which is all the code ever observes of it). -/
inductive PyExc where
  | ouraAPIError (status_code : Nat) (message : String) (detail : Option JsonVal)
  | attributeError
  | valueError
  | typeError

/-- Model of `str(e)` of an `OuraAPIError`, as built in `OuraAPIError.__init__`:
`"[status] message: detail"` when `detail` is truthy, else
`"[status] message"`. -/
def ouraErrorStr (status_code : Nat) (message : String) (detail : Option JsonVal) : String :=
  match detail with
  | some d =>
      if truthy d then "[" ++ toString status_code ++ "] " ++ message ++ ": " ++ pyStr d
      else "[" ++ toString status_code ++ "] " ++ message
  | none => "[" ++ toString status_code ++ "] " ++ message

/-! ## Credential Store (config.py) -/

/-- In-memory state of `OuraConfig`: the four credential fields plus the
configured token file path. -/
structure OuraConfigState where
  client_id : Option String
  client_secret : Option String
  access_token : Option String
  refresh_token : Option String
  token_file : String

/-- The token-sourcing environment variables `OURA_ACCESS_TOKEN` and
`OURA_REFRESH_TOKEN` (`os.getenv` yields `none` when unset). -/
structure EnvVars where
  access_token : Option String
  refresh_token : Option String

/-- Observable condition of the token file when `_load_tokens` runs:
absent (`Path.exists()` is false), raising `IOError` on open/read, raising
`json.JSONDecodeError` on parse, or parsed to a JSON value. -/
inductive TokenFileState where
  | absent
  | ioError
  | malformed
  | parsed (v : JsonVal)

/-- Model of `tokens.get(k)` of a parsed token file, landed in an `Optional[str]`
config field.  A present JSON `null` is Python `None`, indistinguishable
from an absent key; other values are stored (rendered via `str`, which is
the only way the config consumers observe them). -/
def getTokenField (fs : List (String × JsonVal)) (k : String) : Option String :=
  match lookupField fs k with
  | none => none
  | some .null => none
  | some v => some (pyStr v)

/-- Model of `OuraConfig._load_tokens`: try the token file first; on
`json.JSONDecodeError` or `IOError` (or a missing file) fall back to the
environment variables.  A file that parses to a non-object raises
`AttributeError` from `tokens.get`, which is not caught. -/
def loadTokens (file : TokenFileState) (env : EnvVars) :
    Except PyExc (Option String × Option String) :=
  match file with
  | .parsed v =>
    match v with
    | .obj fs => .ok (getTokenField fs "access_token", getTokenField fs "refresh_token")
    | _ => .error .attributeError
  | .absent => .ok (env.access_token, env.refresh_token)
  | .ioError => .ok (env.access_token, env.refresh_token)
  | .malformed => .ok (env.access_token, env.refresh_token)

/-- Warning printed by `OuraConfig.save_tokens` when the file write fails. -/
def saveWarning (path msg : String) : String :=
  s!"Warning: Could not save tokens to {path}: {msg}"

/-- Model of `OuraConfig.save_tokens`: overwrite the in-memory fields, then
best-effort write the token file; an `IOError` (outcome `.error msg`) is
caught and reported as a printed warning.  Returns the new config state and
the printed output. -/
def saveTokens (cfg : OuraConfigState) (access_token refresh_token : String)
    (writeOutcome : Except String Unit) :
    Except PyExc (OuraConfigState × List String) :=
  let cfg := { cfg with
    access_token := some access_token, refresh_token := some refresh_token }
  match writeOutcome with
  | .ok _ => .ok (cfg, [])
  | .error msg => .ok (cfg, [saveWarning cfg.token_file msg])

/-- Error message of `validate` when no access token is set. -/
def noTokenMsg : String :=
  "OURA_ACCESS_TOKEN is required but not set.\nGet your Personal Access Token from: https://cloud.ouraring.com/personal-access-tokens"

/-- Error message of `validate` when a refresh token is set without both
client credentials. -/
def oauthCredsMsg : String :=
  "OURA_CLIENT_ID and OURA_CLIENT_SECRET are required when using OURA_REFRESH_TOKEN"

/-- Model of `OuraConfig.validate`: returns `(is_valid, error_message)`. -/
def validate (cfg : OuraConfigState) : Bool × String :=
  if !truthyOpt cfg.access_token then
    (false, noTokenMsg)
  else if truthyOpt cfg.refresh_token
      && !(truthyOpt cfg.client_id && truthyOpt cfg.client_secret) then
    (false, oauthCredsMsg)
  else
    (true, "")

/-- Model of `OuraConfig.is_using_oauth2`. -/
def isUsingOauth2 (cfg : OuraConfigState) : Bool :=
  truthyOpt cfg.refresh_token && truthyOpt cfg.client_id && truthyOpt cfg.client_secret

/-! ## API Forwarder (oura_client.py) -/

/-- An `httpx.Response` as observed by the client code: status, the result of
`.json()` (`none` when it raises `ValueError`), and `.text`. -/
structure HttpResponse where
  status_code : Nat
  jsonBody : Option JsonVal
  text : String

/-- The data of one HTTP call issued through the `httpx.Client`. -/
structure RequestData where
  method : String
  url : String
  params : List (String × JsonVal)
  headers : List (String × String)
  formData : List (String × String)

/-- Outcome of handing a request to the HTTP library: a response, or an
`httpx.RequestError` (connection error, timeout, DNS, ...). -/
inductive SendOutcome where
  | resp (r : HttpResponse)
  | transportError (msg : String)

/-- The upstream world: maps the index of the HTTP call (0-based, per
client) and the request to its outcome. -/
abbrev HttpEnv := Nat → RequestData → SendOutcome

/-- Model of `OuraClient.BASE_URL`. -/
def BASE_URL : String := "https://api.ouraring.com"

/-- State of an `OuraClient` together with its process environment:
the shared config, the constructor-supplied `_access_token` override,
the token-file write outcome, and ghost bookkeeping (number of HTTP calls
made, the requests issued, the number of `refresh_access_token`
invocations, and printed warnings). -/
structure ClientState where
  config : OuraConfigState
  overrideToken : Option String
  tokenFileWrite : Except String Unit
  calls : Nat
  requestLog : List RequestData
  refreshAttempts : Nat
  warnings : List String

/-- Issue one HTTP call: consult the oracle at the current call index and
record the call. -/
def send (env : HttpEnv) (st : ClientState) (req : RequestData) :
    SendOutcome × ClientState :=
  (env st.calls req,
   { st with calls := st.calls + 1, requestLog := st.requestLog ++ [req] })

/-- Model of `OuraClient._get_headers`: provided token first (`self._access_token or
self.config.access_token`); raise `OuraAPIError(401, ...)` when the result
is falsy. -/
def getHeaders (st : ClientState) : Except PyExc (List (String × String)) :=
  let token : Option String :=
    if truthyOpt st.overrideToken then st.overrideToken else st.config.access_token
  if truthyOpt token then
    .ok [("Authorization", "Bearer " ++ token.getD "")]
  else
    .error (.ouraAPIError 401 "No access token available"
      (some (.str "Please configure OURA_ACCESS_TOKEN or authenticate via OAuth")))

/-- The form-encoded POST to `/oauth/token` sent by `refresh_access_token`. -/
def refreshRequest (cfg : OuraConfigState) : RequestData :=
  { method := "POST"
    url := BASE_URL ++ "/oauth/token"
    params := []
    headers := [("Content-Type", "application/x-www-form-urlencoded")]
    formData :=
      [("grant_type", "refresh_token"),
       ("refresh_token", cfg.refresh_token.getD ""),
       ("client_id", cfg.client_id.getD ""),
       ("client_secret", cfg.client_secret.getD "")] }

/-- Model of `OuraClient.refresh_access_token`: returns `false` without a call when
the refresh token or the client credential pair is missing; otherwise POSTs
to the token endpoint.  On HTTP 200 with truthy `access_token` and
`refresh_token` fields it persists them via `save_tokens` and returns
`true`; every other outcome (including any exception) yields `false`.
The ghost counter `refreshAttempts` counts invocations. -/
def refreshAccessToken (env : HttpEnv) (st : ClientState) : Bool × ClientState :=
  let st := { st with refreshAttempts := st.refreshAttempts + 1 }
  if !truthyOpt st.config.refresh_token then (false, st)
  else if !(truthyOpt st.config.client_id && truthyOpt st.config.client_secret) then
    (false, st)
  else
    match send env st (refreshRequest st.config) with
    | (.transportError _, st') => (false, st')
    | (.resp r, st') =>
      if r.status_code = 200 then
        match r.jsonBody with
        | some (.obj fs) =>
          let na := lookupField fs "access_token"
          let nr := lookupField fs "refresh_token"
          if truthyOptJson na && truthyOptJson nr then
            match saveTokens st'.config (pyStr (na.getD .null)) (pyStr (nr.getD .null))
                st'.tokenFileWrite with
            | .ok (cfg', printed) =>
                (true, { st' with config := cfg', warnings := st'.warnings ++ printed })
            | .error _ => (false, st')
          else (false, st')
        | some _ => (false, st')
        | none => (false, st')
      else (false, st')

/-- Model of `title = error_data.get("title", "API Error")`, as observed through
`str` (a key present with JSON `null` is Python `None`, rendered "None"). -/
def pyTitle (fs : List (String × JsonVal)) : String :=
  match lookupField fs "title" with
  | some v => pyStr v
  | none => "API Error"

/-- Model of `detail = error_data.get("detail", error_data.get("error_description"))`:
the default (the `error_description` lookup) is only consulted when the
`detail` key is absent; a present JSON `null` is Python `None`. -/
def pyDetail (fs : List (String × JsonVal)) : Option JsonVal :=
  match lookupField fs "detail" with
  | some .null => none
  | some v => some v
  | none =>
    match lookupField fs "error_description" with
    | some .null => none
    | some v => some v
    | none => none

/-- The `status_code >= 400` branch of `_request`: parse a structured error
body (`ValueError` from `.json()` is caught and yields the `HTTP {status}`
fallback with `response.text or None`); a body that parses to a non-object
raises `AttributeError` from `.get`, which is not caught. -/
def handleErrorResponse (r : HttpResponse) : PyExc :=
  match r.jsonBody with
  | some (.obj fs) => .ouraAPIError r.status_code (pyTitle fs) (pyDetail fs)
  | some _ => .attributeError
  | none =>
      .ouraAPIError r.status_code ("HTTP " ++ toString r.status_code)
        (if r.text = "" then none else some (.str r.text))

/-- Tail of `_request` once the 401-retry branch is passed: error out on
`status_code >= 400`, else `return response.json()` (whose `ValueError` is
not caught). -/
def errorOrBody (r : HttpResponse) : Except PyExc JsonVal :=
  if 400 ≤ r.status_code then .error (handleErrorResponse r)
  else
    match r.jsonBody with
    | some v => .ok v
    | none => .error .valueError

/-- The request data built by `_request` for a data call. -/
def apiRequest (method endpoint : String) (params : List (String × JsonVal))
    (headers : List (String × String)) : RequestData :=
  { method, url := BASE_URL ++ endpoint, params, headers, formData := [] }

/-- Model of `OuraClient._request` with `retry_on_401=False`: headers, one HTTP call
(transport errors become `OuraAPIError(0, "Request failed", str(e))`), then
error handling / body return.  The 401-refresh branch is disabled by the
flag. -/
def requestNoRetry (env : HttpEnv) (st : ClientState) (method endpoint : String)
    (params : List (String × JsonVal)) : Except PyExc JsonVal × ClientState :=
  match getHeaders st with
  | .error e => (.error e, st)
  | .ok headers =>
    match send env st (apiRequest method endpoint params headers) with
    | (.transportError msg, st') =>
        (.error (.ouraAPIError 0 "Request failed" (some (.str msg))), st')
    | (.resp r, st') => (errorOrBody r, st')

/-- Model of `OuraClient._request` with `retry_on_401=True`: on a 401, attempt one
token refresh; on refresh success re-issue the request once with
`retry_on_401=False` (the single recursive call of the source, inlined as
`requestNoRetry`); on refresh failure fall through to the generic error
handling of the original 401. -/
def requestRetry (env : HttpEnv) (st : ClientState) (method endpoint : String)
    (params : List (String × JsonVal)) : Except PyExc JsonVal × ClientState :=
  match getHeaders st with
  | .error e => (.error e, st)
  | .ok headers =>
    match send env st (apiRequest method endpoint params headers) with
    | (.transportError msg, st') =>
        (.error (.ouraAPIError 0 "Request failed" (some (.str msg))), st')
    | (.resp r, st') =>
      if r.status_code = 401 then
        match refreshAccessToken env st' with
        | (true, st2) => requestNoRetry env st2 method endpoint params
        | (false, st2) => (errorOrBody r, st2)
      else (errorOrBody r, st')

/-- Model of `OuraClient._request`, dispatching on the `retry_on_401` flag.  The
source is recursive with the flag going `true → false`; the recursion depth
is therefore at most one and is unrolled into `requestRetry`/`requestNoRetry`
above. -/
def request (env : HttpEnv) (st : ClientState) (method endpoint : String)
    (params : List (String × JsonVal)) (retry_on_401 : Bool) :
    Except PyExc JsonVal × ClientState :=
  if retry_on_401 then requestRetry env st method endpoint params
  else requestNoRetry env st method endpoint params

/-- Python `all_items.extend(items)`: lists extend by their elements,
strings by their characters, dicts by their keys; other values raise
`TypeError`. -/
def pyExtendItems : JsonVal → Except PyExc (List JsonVal)
  | .arr l => .ok l
  | .str s => .ok (s.toList.map (fun c => .str c.toString))
  | .obj fs => .ok (fs.map (fun p => .str p.1))
  | _ => .error .typeError

/-- Model of `params["next_token"] = next_token` on an insertion-ordered dict:
replace the value in place if the key exists, else append. -/
def setParam : List (String × JsonVal) → String → JsonVal → List (String × JsonVal)
  | [], k, v => [(k, v)]
  | (k', v') :: rest, k, v =>
      if k' = k then (k, v) :: rest else (k', v') :: setParam rest k v

/-- The `while True` loop of `_handle_pagination`, with fuel: `none` in the
first component models a run that exceeds the fuel (the source loop is
unbounded).  Each iteration issues `request("GET", endpoint, params)` (with
the default `retry_on_401=True`), extends the accumulator with the `data`
field (default `[]`), and continues only while `next_token` is truthy,
copying it into the params. -/
def paginateLoop (env : HttpEnv) (endpoint : String) :
    Nat → ClientState → List (String × JsonVal) → List JsonVal →
    Option (Except PyExc (List JsonVal)) × ClientState
  | 0, st, _, _ => (none, st)
  | fuel + 1, st, params, acc =>
    match request env st "GET" endpoint params true with
    | (.error e, st') => (some (.error e), st')
    | (.ok data, st') =>
      match data with
      | .obj fs =>
        match pyExtendItems ((lookupField fs "data").getD (.arr [])) with
        | .error e => (some (.error e), st')
        | .ok items =>
          let acc' := acc ++ items
          match lookupField fs "next_token" with
          | some tv =>
            if truthy tv then
              paginateLoop env endpoint fuel st' (setParam params "next_token" tv) acc'
            else (some (.ok acc'), st')
          | none => (some (.ok acc'), st')
      | _ => (some (.error .attributeError), st')

/-- Model of `OuraClient._handle_pagination` (`params = params or {}` replaces a
missing or empty dict by `{}`). -/
def handlePagination (env : HttpEnv) (st : ClientState) (endpoint : String)
    (params : Option (List (String × JsonVal))) (fuel : Nat) :
    Option (Except PyExc (List JsonVal)) × ClientState :=
  paginateLoop env endpoint fuel st (params.getD []) []

/-- Model of `OuraClient.get_daily_sleep`: build the date params and paginate the
daily-sleep endpoint. -/
def getDailySleep (env : HttpEnv) (st : ClientState) (start_date : String)
    (end_date : Option String) (fuel : Nat) :
    Option (Except PyExc (List JsonVal)) × ClientState :=
  let params := [("start_date", JsonVal.str start_date)]
  let params :=
    match end_date with
    | some e => if e ≠ "" then params ++ [("end_date", JsonVal.str e)] else params
    | none => params
  handlePagination env st "/v2/usercollection/daily_sleep" (some params) fuel

/-! ## Tool Dispatch Layer (server.py) -/

/-- Civil date from a day count (days since 1970-01-01), by the standard
era-based conversion; returns `(year, month, day)`. -/
def civilFromDays (z0 : Nat) : Nat × Nat × Nat :=
  let z := z0 + 719468
  let era := z / 146097
  let doe := z % 146097
  let yoe := (doe + doe / 36524 - doe / 1460 - doe / 146096) / 365
  let y := yoe + era * 400
  let doy := doe - (365 * yoe + yoe / 4 - yoe / 100)
  let mp := (5 * doy + 2) / 153
  let d := doy - (153 * mp + 2) / 5 + 1
  let m := if mp < 10 then mp + 3 else mp - 9
  (if m ≤ 2 then y + 1 else y, m, d)

/-- Zero-pad a number below 100 to two digits. -/
def pad2 (n : Nat) : String :=
  if n < 10 then "0" ++ toString n else toString n

/-- Model of `datetime.strftime("%Y-%m-%d")` for a day count since 1970-01-01. -/
def formatDate (z : Nat) : String :=
  let c := civilFromDays z
  toString c.1 ++ "-" ++ pad2 c.2.1 ++ "-" ++ pad2 c.2.2

example : formatDate 0 = "1970-01-01" := rfl
example : formatDate 31 = "1970-02-01" := rfl
example : formatDate 365 = "1971-01-01" := rfl
example : formatDate 11016 = "2000-02-29" := rfl
example : formatDate 20738 = "2026-10-12" := rfl

/-- Python `str.lower` (ASCII range; the inputs the server compares against
are ASCII). -/
def pyLower (s : String) : String := ⟨s.data.map Char.toLower⟩

/-- Python `s.startswith(p)`. -/
def pyStartsWith (s p : String) : Bool :=
  s.data.take p.data.length == p.data

/-- Python `str.strip` whitespace set (space, tab, newline, carriage return,
vertical tab, form feed). -/
def isPySpace (c : Char) : Bool :=
  c = ' ' || c = '\t' || c = '\n' || c = '\r' || c = '\x0b' || c = '\x0c'

/-- Python `str.strip()`. -/
def pyStrip (s : String) : String :=
  ⟨((s.toList.dropWhile isPySpace).reverse.dropWhile isPySpace).reverse⟩

/-- Model of `server.parse_date`, with the ambient `datetime.now()` passed in as the
current day count `todayD` (days since 1970-01-01).  A falsy argument
(absent or empty) yields today; otherwise the argument is lowercased and
stripped, the four recognized relative forms are translated ("last week" /
"last month" by prefix), and anything else is returned as the
lowercased/stripped string. -/
def parse_date (todayD : Nat) (date_str : Option String) : String :=
  match date_str with
  | none => formatDate todayD
  | some s0 =>
    if s0 = "" then formatDate todayD
    else
      let s := pyStrip (pyLower s0)
      if s = "today" then formatDate todayD
      else if s = "yesterday" then formatDate (todayD - 1)
      else if pyStartsWith s "last week" then formatDate (todayD - 7)
      else if pyStartsWith s "last month" then formatDate (todayD - 30)
      else s

/-- JSON string escaping as `json.dumps` performs it for the characters the
model produces. -/
def jsonEscapeChar (c : Char) : String :=
  if c = '"' then "\\\""
  else if c = '\\' then "\\\\"
  else if c = '\n' then "\\n"
  else if c = '\t' then "\\t"
  else if c = '\r' then "\\r"
  else c.toString

/-- A JSON string literal. -/
def jsonQuote (s : String) : String :=
  "\"" ++ String.join (s.toList.map jsonEscapeChar) ++ "\""

/-- Indentation prefix of `json.dumps(..., indent=2)` at nesting level `lvl`. -/
def jsonIndent (lvl : Nat) : String := String.join (List.replicate lvl "  ")

/-- Model of `json.dumps(data, indent=2, default=str)` on a JSON value. -/
def dumps (v : JsonVal) (lvl : Nat) : String :=
  match v with
  | .null => "null"
  | .bool true => "true"
  | .bool false => "false"
  | .num n => toString n
  | .str s => jsonQuote s
  | .arr [] => "[]"
  | .arr l =>
      "[\n"
        ++ String.intercalate ",\n"
            (l.attach.map (fun x => jsonIndent (lvl + 1) ++ dumps x.1 (lvl + 1)))
        ++ "\n" ++ jsonIndent lvl ++ "]"
  | .obj [] => "\x7b\x7d"
  | .obj fs =>
      "\x7b\n"
        ++ String.intercalate ",\n"
            (fs.attach.map (fun x =>
              jsonIndent (lvl + 1) ++ jsonQuote x.1.1 ++ ": " ++ dumps x.1.2 (lvl + 1)))
        ++ "\n" ++ jsonIndent lvl ++ "\x7d"
termination_by sizeOf v
decreasing_by
  · have h := List.sizeOf_lt_of_mem x.2
    simp only [JsonVal.arr.sizeOf_spec]
    omega
  · have h := List.sizeOf_lt_of_mem x.2
    have h2 : sizeOf x.1.2 < sizeOf x.1 := by
      obtain ⟨a, b⟩ := x.1
      simp only [Prod.mk.sizeOf_spec]
      omega
    simp only [JsonVal.obj.sizeOf_spec]
    omega

/-- Model of `server.format_response`: pretty JSON text. -/
def format_response (data : JsonVal) : String := dumps data 0

/-- The error payload built by every tool's `except OuraAPIError` clause:
`{"error": str(e), "status_code": e.status_code}`. -/
def errorPayload (status_code : Nat) (message : String) (detail : Option JsonVal) : JsonVal :=
  .obj [("error", .str (ouraErrorStr status_code message detail)),
        ("status_code", .num status_code)]

/-- Model of `end = parse_date(end_date) if end_date else None` of the tools. -/
def toolEndDate (todayD : Nat) (end_date : Option String) : Option String :=
  match end_date with
  | some e => if e ≠ "" then some (parse_date todayD (some e)) else none
  | none => none

/-- The `server.get_daily_sleep` tool: normalize the dates, call the client
(`get_oura_client()` yields the client whose state `st` holds the config
and any override token), and format the result; an `OuraAPIError` is caught
and serialized as the error payload, any other exception escapes.  `none`
in the first component propagates an out-of-fuel pagination run. -/
def get_daily_sleep_tool (env : HttpEnv) (todayD : Nat) (fuel : Nat)
    (st : ClientState) (start_date : String) (end_date : Option String) :
    Option (Except PyExc String) × ClientState :=
  let start := parse_date todayD (some start_date)
  let endd : Option String := toolEndDate todayD end_date
  match getDailySleep env st start endd fuel with
  | (none, st') => (none, st')
  | (some (.ok items), st') => (some (.ok (format_response (.arr items))), st')
  | (some (.error (.ouraAPIError s m d)), st') =>
      (some (.ok (format_response (errorPayload s m d))), st')
  | (some (.error e), st') => (some (.error e), st')

/-! ## Shared concrete scenarios -/

/-- A config with only a personal access token. -/
def patConfig : OuraConfigState :=
  { client_id := none, client_secret := none, access_token := some "tok",
    refresh_token := none, token_file := ".oura_tokens.json" }

/-- A config with the full OAuth2 credential set. -/
def oauthConfig : OuraConfigState :=
  { client_id := some "cid", client_secret := some "csec",
    access_token := some "tok", refresh_token := some "rtok",
    token_file := ".oura_tokens.json" }

/-- A fresh client over a config, with an optional override token. -/
def mkState (cfg : OuraConfigState) (ov : Option String) : ClientState :=
  { config := cfg, overrideToken := ov, tokenFileWrite := .ok (),
    calls := 0, requestLog := [], refreshAttempts := 0, warnings := [] }

/-- Is a JSON value an object? -/
def isObj : JsonVal → Bool
  | .obj _ => true
  | _ => false

/-! ## Theorems for the claims -/

/-- C9: `validate` returns not-ok with the personal-token guidance message
for every configuration with no (falsy) access token; it returns not-ok for
every configuration that has a refresh token but is missing `client_id` or
`client_secret`; and it returns ok (with an empty message) for every other
configuration. -/
theorem c9_validate (cfg : OuraConfigState) :
    (truthyOpt cfg.access_token = false → validate cfg = (false, noTokenMsg))
    ∧ (truthyOpt cfg.access_token = true → truthyOpt cfg.refresh_token = true →
        (truthyOpt cfg.client_id = false ∨ truthyOpt cfg.client_secret = false) →
        validate cfg = (false, oauthCredsMsg))
    ∧ (truthyOpt cfg.access_token = true →
        (truthyOpt cfg.refresh_token = true →
          truthyOpt cfg.client_id = true ∧ truthyOpt cfg.client_secret = true) →
        validate cfg = (true, "")) := by
  refine ⟨fun h => by simp [validate, h], fun h1 h2 h3 => ?_, fun h1 h2 => ?_⟩
  · rcases h3 with h3 | h3 <;> simp [validate, h1, h2, h3]
  · by_cases hr : truthyOpt cfg.refresh_token = true
    · obtain ⟨hc1, hc2⟩ := h2 hr
      simp [validate, h1, hr, hc1, hc2]
    · simp only [Bool.not_eq_true] at hr
      simp [validate, h1, hr]

/-- Witness for C9 at concrete configurations: a config without an access
token is rejected with the guidance message; the full OAuth2 config is
accepted. -/
theorem c9_validate_witness :
    validate { client_id := none, client_secret := none, access_token := none,
               refresh_token := some "r", token_file := "f" }
      = (false, noTokenMsg)
    ∧ validate oauthConfig = (true, "") := by
  constructor
  · exact (c9_validate _).1 (by decide)
  · exact (c9_validate oauthConfig).2.2 (by decide) (fun _ => by decide)

/-- C8: `save_tokens` never raises; it overwrites the in-memory
`access_token`/`refresh_token` with the new pair (leaving the client
credentials untouched) for every file-write outcome, and a failed write is
only reported as a printed warning. -/
theorem c8_save_tokens (cfg : OuraConfigState) (a r : String)
    (w : Except String Unit) :
    ∃ cfg' printed, saveTokens cfg a r w = .ok (cfg', printed)
      ∧ cfg'.access_token = some a
      ∧ cfg'.refresh_token = some r
      ∧ cfg'.client_id = cfg.client_id
      ∧ cfg'.client_secret = cfg.client_secret
      ∧ (∀ m, w = .error m → printed = [saveWarning cfg.token_file m])
      ∧ (w = .ok () → printed = []) := by
  cases w with
  | ok u =>
      refine ⟨_, _, rfl, rfl, rfl, rfl, rfl, ?_, ?_⟩
      · intro m hm
        exact absurd hm (by simp)
      · intro _
        rfl
  | error m =>
      refine ⟨_, _, rfl, rfl, rfl, rfl, rfl, ?_, ?_⟩
      · intro m' hm'
        injection hm' with h
        subst h
        rfl
      · intro h
        exact absurd h (by simp)

/-- Witness for C8: a failing write still yields the updated in-memory pair
and a warning. -/
theorem c8_save_tokens_witness :
    ∃ cfg' printed,
      saveTokens patConfig "A" "R" (.error "disk full") = .ok (cfg', printed)
      ∧ cfg'.access_token = some "A"
      ∧ cfg'.refresh_token = some "R"
      ∧ cfg'.client_id = patConfig.client_id
      ∧ cfg'.client_secret = patConfig.client_secret
      ∧ (∀ m, (Except.error "disk full" : Except String Unit) = .error m →
          printed = [saveWarning patConfig.token_file m])
      ∧ ((Except.error "disk full" : Except String Unit) = .ok () → printed = []) :=
  c8_save_tokens patConfig "A" "R" (.error "disk full")

/-- C6 counterexample: a token file whose content is valid JSON but not an
object (here `[1]`) makes `_load_tokens` raise `AttributeError` instead of
silently falling back to the environment values. -/
theorem c6_cex :
    loadTokens (.parsed (.arr [.num 1])) ⟨some "EA", some "ER"⟩
      = .error .attributeError
    ∧ (Except.error PyExc.attributeError
        ≠ (.ok (some "EA", some "ER") : Except PyExc (Option String × Option String))) :=
  ⟨rfl, fun h => Except.noConfusion h⟩

/-- C6 (amended): `_load_tokens` silently falls back to the environment
values exactly when the token file is absent, unreadable (`IOError`) or
malformed (`json.JSONDecodeError`); a file that parses to a JSON object
supplies the fields (without raising), while a file that parses to any
non-object JSON value raises an uncaught `AttributeError`. -/
theorem c6_load_fallback (env : EnvVars) :
    loadTokens .absent env = .ok (env.access_token, env.refresh_token)
    ∧ loadTokens .ioError env = .ok (env.access_token, env.refresh_token)
    ∧ loadTokens .malformed env = .ok (env.access_token, env.refresh_token)
    ∧ (∀ fs, loadTokens (.parsed (.obj fs)) env
        = .ok (getTokenField fs "access_token", getTokenField fs "refresh_token"))
    ∧ (∀ v, isObj v = false →
        loadTokens (.parsed v) env = .error .attributeError) := by
  refine ⟨rfl, rfl, rfl, fun _ => rfl, fun v hv => ?_⟩
  cases v <;> simp [isObj] at hv ⊢ <;> rfl

/-- Witness for C6 (amended): fallback on a malformed file, raising on a
JSON-number file. -/
theorem c6_load_fallback_witness :
    loadTokens .malformed ⟨some "EA", some "ER"⟩ = .ok (some "EA", some "ER")
    ∧ loadTokens (.parsed (.num 3)) ⟨some "EA", some "ER"⟩
        = .error .attributeError := by
  constructor
  · exact (c6_load_fallback ⟨some "EA", some "ER"⟩).2.2.1
  · exact (c6_load_fallback ⟨some "EA", some "ER"⟩).2.2.2.2 (.num 3) (by decide)

/-- C7 counterexample: with a token file that parses and supplies only
`access_token`, the loaded `refresh_token` is `None`, not the value of the
`OURA_REFRESH_TOKEN` environment variable ("B" here). -/
theorem c7_cex :
    loadTokens (.parsed (.obj [("access_token", .str "A")])) ⟨some "EA", some "B"⟩
      = .ok (some "A", none)
    ∧ ((.ok (some "A", none) : Except PyExc (Option String × Option String))
        ≠ .ok (some "A", some "B")) :=
  ⟨rfl, by simp⟩

/-- C7 (amended): the environment variables are consulted exactly when the
token file is absent or fails to read/parse; when the file parses as an
object, both fields come from the file alone (a field the file does not
supply is `None`, not the environment value), so the result is independent
of the environment. -/
theorem c7_env_vars :
    (∀ fs env1 env2, loadTokens (.parsed (.obj fs)) env1
        = loadTokens (.parsed (.obj fs)) env2)
    ∧ (∀ fs env, loadTokens (.parsed (.obj fs)) env
        = .ok (getTokenField fs "access_token", getTokenField fs "refresh_token"))
    ∧ (∀ env, loadTokens
        (.parsed (.obj [("access_token", .str "A"), ("refresh_token", .str "B")])) env
        = .ok (some "A", some "B"))
    ∧ (∀ env, loadTokens .absent env = .ok (env.access_token, env.refresh_token))
    ∧ (∀ env, loadTokens .ioError env = .ok (env.access_token, env.refresh_token)) :=
  ⟨fun _ _ _ => rfl, fun _ _ => rfl, fun _ => rfl, fun _ => rfl, fun _ => rfl⟩

/-- C4 counterexample: the input "TODAY" is not one of the four listed
relative forms, yet it is not returned unchanged: `parse_date` lowercases
it and maps it to the current date. -/
theorem c4_cex :
    parse_date 20738 (some "TODAY") = formatDate 20738
    ∧ formatDate 20738 = "2026-10-12"
    ∧ "2026-10-12" ≠ "TODAY" :=
  ⟨rfl, rfl, by decide⟩

/-- Branch lemma: an empty argument is falsy and yields today. -/
theorem parse_date_empty (todayD : Nat) :
    parse_date todayD (some "") = formatDate todayD := by
  simp [parse_date]

/-- Branch lemma: normalized "today". -/
theorem parse_date_today (todayD : Nat) (s : String) (h1 : s ≠ "")
    (h2 : pyStrip (pyLower s) = "today") :
    parse_date todayD (some s) = formatDate todayD := by
  simp [parse_date, h1, h2]

/-- Branch lemma: normalized "yesterday". -/
theorem parse_date_yesterday (todayD : Nat) (s : String) (h1 : s ≠ "")
    (h2 : pyStrip (pyLower s) = "yesterday") :
    parse_date todayD (some s) = formatDate (todayD - 1) := by
  simp [parse_date, h1, h2]

/-- Branch lemma: normalized "last week" prefix. -/
theorem parse_date_last_week (todayD : Nat) (s : String) (h1 : s ≠ "")
    (h2 : pyStrip (pyLower s) ≠ "today") (h3 : pyStrip (pyLower s) ≠ "yesterday")
    (h4 : pyStartsWith (pyStrip (pyLower s)) "last week" = true) :
    parse_date todayD (some s) = formatDate (todayD - 7) := by
  simp [parse_date, h1, h2, h3, h4]

/-- Branch lemma: normalized "last month" prefix. -/
theorem parse_date_last_month (todayD : Nat) (s : String) (h1 : s ≠ "")
    (h2 : pyStrip (pyLower s) ≠ "today") (h3 : pyStrip (pyLower s) ≠ "yesterday")
    (h4 : pyStartsWith (pyStrip (pyLower s)) "last week" = false)
    (h5 : pyStartsWith (pyStrip (pyLower s)) "last month" = true) :
    parse_date todayD (some s) = formatDate (todayD - 30) := by
  simp [parse_date, h1, h2, h3, h4, h5]

/-- Branch lemma: passthrough of the normalized string. -/
theorem parse_date_passthrough (todayD : Nat) (s : String) (h1 : s ≠ "")
    (h2 : pyStrip (pyLower s) ≠ "today") (h3 : pyStrip (pyLower s) ≠ "yesterday")
    (h4 : pyStartsWith (pyStrip (pyLower s)) "last week" = false)
    (h5 : pyStartsWith (pyStrip (pyLower s)) "last month" = false) :
    parse_date todayD (some s) = pyStrip (pyLower s) := by
  simp [parse_date, h1, h2, h3, h4, h5]

/-- C4 (amended): `parse_date` first lowercases and strips its argument
(an absent or empty argument yields the current date); on the normalized
string, "today" maps to the current date, "yesterday" to the current date
minus 1 day, a string starting with "last week" to minus 7 days and one
starting with "last month" to minus 30 days (formatted YYYY-MM-DD); every
other input returns its lowercased, stripped form (not the original
string). -/
theorem c4_parse_date (todayD : Nat) :
    parse_date todayD none = formatDate todayD
    ∧ parse_date todayD (some "") = formatDate todayD
    ∧ (∀ s, s ≠ "" → pyStrip (pyLower s) = "today" →
        parse_date todayD (some s) = formatDate todayD)
    ∧ (∀ s, s ≠ "" → pyStrip (pyLower s) = "yesterday" →
        parse_date todayD (some s) = formatDate (todayD - 1))
    ∧ (∀ s, s ≠ "" → pyStrip (pyLower s) ≠ "today" →
        pyStrip (pyLower s) ≠ "yesterday" →
        pyStartsWith (pyStrip (pyLower s)) "last week" = true →
        parse_date todayD (some s) = formatDate (todayD - 7))
    ∧ (∀ s, s ≠ "" → pyStrip (pyLower s) ≠ "today" →
        pyStrip (pyLower s) ≠ "yesterday" →
        pyStartsWith (pyStrip (pyLower s)) "last week" = false →
        pyStartsWith (pyStrip (pyLower s)) "last month" = true →
        parse_date todayD (some s) = formatDate (todayD - 30))
    ∧ (∀ s, s ≠ "" → pyStrip (pyLower s) ≠ "today" →
        pyStrip (pyLower s) ≠ "yesterday" →
        pyStartsWith (pyStrip (pyLower s)) "last week" = false →
        pyStartsWith (pyStrip (pyLower s)) "last month" = false →
        parse_date todayD (some s) = pyStrip (pyLower s)) :=
  ⟨rfl, parse_date_empty todayD, parse_date_today todayD, parse_date_yesterday todayD,
   parse_date_last_week todayD, parse_date_last_month todayD,
   parse_date_passthrough todayD⟩

/-- Witness for C4 (amended): "Last Month report" (prefix match after
normalization) maps to the current date minus 30 days, and " 2025-01-05 "
maps to its stripped form. -/
theorem c4_parse_date_witness :
    parse_date 20738 (some "Last Month report") = formatDate (20738 - 30)
    ∧ parse_date 20738 (some " 2025-01-05 ") = "2025-01-05" := by
  constructor
  · exact (c4_parse_date 20738).2.2.2.2.2.1 "Last Month report"
      (by decide) (by decide) (by decide) (by decide) (by decide)
  · exact (c4_parse_date 20738).2.2.2.2.2.2 " 2025-01-05 "
      (by decide) (by decide) (by decide) (by decide) (by decide)

/-- An upstream that always answers 500 with body `{}`. -/
def emptyObj500Env : HttpEnv := fun _ _ =>
  .resp { status_code := 500, jsonBody := some (.obj []), text := "\x7b\x7d" }

/-- C5 counterexample: a 500 response whose body parses as the JSON object
`{}` — which carries neither `title`/`detail` nor `error_description` — does
not produce the claimed ("HTTP 500", body-text) fallback error: the call
fails with `(500, "API Error", None)` because `error_data.get` supplies the
"API Error" default instead. -/
theorem c5_cex :
    (request emptyObj500Env (mkState patConfig none) "GET"
        "/v2/usercollection/personal_info" [] true).1
      = .error (.ouraAPIError 500 "API Error" none)
    ∧ (PyExc.ouraAPIError 500 "API Error" none
        ≠ .ouraAPIError 500 ("HTTP " ++ toString 500) (some (.str "\x7b\x7d"))) := by
  refine ⟨rfl, fun h => ?_⟩
  injection h with h1 h2 h3
  exact absurd h2 (by decide)

/-- C5 (amended): for every response with status ≥ 400 not consumed by the
401-refresh path, the call fails with the error computed by the
status-≥-400 handler; if the body parses as a JSON object, that error
carries (status, the object's `title` field rendered by `str` — defaulting
to "API Error" when the key is absent — and its `detail` field, else its
`error_description` field, else None); if the body does not parse as JSON
at all, it carries (status, "HTTP {status}", raw body text or None). -/
theorem c5_error_responses (env : HttpEnv) (st : ClientState)
    (method endpoint : String) (params : List (String × JsonVal))
    (hdrs : List (String × String)) (r : HttpResponse)
    (hh : getHeaders st = .ok hdrs)
    (hr : env st.calls (apiRequest method endpoint params hdrs) = .resp r)
    (h400 : 400 ≤ r.status_code) (hn401 : r.status_code ≠ 401) :
    (∀ retry, (request env st method endpoint params retry).1
        = .error (handleErrorResponse r))
    ∧ (∀ fs, r.jsonBody = some (.obj fs) →
        handleErrorResponse r
          = .ouraAPIError r.status_code (pyTitle fs) (pyDetail fs))
    ∧ (r.jsonBody = none →
        handleErrorResponse r
          = .ouraAPIError r.status_code ("HTTP " ++ toString r.status_code)
              (if r.text = "" then none else some (.str r.text))) := by
  refine ⟨fun retry => ?_, fun fs hb => ?_, fun hb => ?_⟩
  · cases retry with
    | true =>
        simp [request, requestRetry, send, hh, hr, hn401, errorOrBody, h400]
    | false =>
        simp [request, requestNoRetry, send, hh, hr, errorOrBody, h400]
  · simp [handleErrorResponse, hb]
  · simp [handleErrorResponse, hb]

/-- An upstream that always answers 404 with a structured error body. -/
def notFound404Env : HttpEnv := fun _ _ =>
  .resp { status_code := 404,
          jsonBody := some (.obj [("title", .str "Not Found"), ("detail", .str "no such record")]),
          text := "..." }

/-- Witness for C5 (amended), at a 404 with a structured body. -/
theorem c5_error_responses_witness :
    (request notFound404Env (mkState patConfig none) "GET"
        "/v2/usercollection/daily_sleep" [] true).1
      = .error (handleErrorResponse
          { status_code := 404,
            jsonBody := some (.obj [("title", .str "Not Found"), ("detail", .str "no such record")]),
            text := "..." })
    ∧ handleErrorResponse
          { status_code := 404,
            jsonBody := some (.obj [("title", .str "Not Found"), ("detail", .str "no such record")]),
            text := "..." }
        = .ouraAPIError 404
            (pyTitle [("title", .str "Not Found"), ("detail", .str "no such record")])
            (pyDetail [("title", .str "Not Found"), ("detail", .str "no such record")]) := by
  have h := c5_error_responses notFound404Env (mkState patConfig none) "GET"
    "/v2/usercollection/daily_sleep" [] [("Authorization", "Bearer tok")]
    { status_code := 404,
      jsonBody := some (.obj [("title", .str "Not Found"), ("detail", .str "no such record")]),
      text := "..." }
    rfl rfl (by decide) (by decide)
  exact ⟨h.1 true, h.2.1 _ rfl⟩

/-- C3: the tool converts every `OuraAPIError` raised by the forwarder
(upstream, transport, or missing-credential — all are raised as
`OuraAPIError`) into the successful string result
`format_response {"error": str(e), "status_code": e.status_code}`, and no
`OuraAPIError` escapes the tool as an exception (an escaping exception is
never an `OuraAPIError`). -/
theorem c3_tool_error_payload (env : HttpEnv) (todayD fuel : Nat)
    (st : ClientState) (start_date : String) (end_date : Option String) :
    (∀ s m d st',
      getDailySleep env st (parse_date todayD (some start_date))
          (toolEndDate todayD end_date) fuel
        = (some (.error (.ouraAPIError s m d)), st') →
      get_daily_sleep_tool env todayD fuel st start_date end_date
        = (some (.ok (format_response (errorPayload s m d))), st'))
    ∧ (∀ e st', get_daily_sleep_tool env todayD fuel st start_date end_date
          = (some (.error e), st') →
        ∀ s m d, e ≠ .ouraAPIError s m d) := by
  constructor
  · intro s m d st' h
    simp [get_daily_sleep_tool, h]
  · intro e st' h s m d hne
    subst hne
    rcases hres : getDailySleep env st (parse_date todayD (some start_date))
        (toolEndDate todayD end_date) fuel with ⟨o, stx⟩
    rcases o with _ | pe
    · simp [get_daily_sleep_tool, hres] at h
    · rcases pe with pe | v
      · cases pe with
        | ouraAPIError s2 m2 d2 => simp [get_daily_sleep_tool, hres] at h
        | attributeError => simp [get_daily_sleep_tool, hres] at h
        | valueError => simp [get_daily_sleep_tool, hres] at h
        | typeError => simp [get_daily_sleep_tool, hres] at h
      · simp [get_daily_sleep_tool, hres] at h

/-- An upstream oracle that is never consulted in the scenarios using it. -/
def idleEnv : HttpEnv := fun _ _ => .transportError "unused"

/-- A client with no token anywhere. -/
def noTokenState : ClientState := mkState { patConfig with access_token := none } none

/-- Witness for C3: with no credentials at all, the missing-credential
`OuraAPIError(401, ...)` raised by `_get_headers` is returned by the tool
as the JSON error payload. -/
theorem c3_tool_error_payload_witness :
    get_daily_sleep_tool idleEnv 20738 1 noTokenState "today" none
      = (some (.ok (format_response (errorPayload 401 "No access token available"
          (some (.str "Please configure OURA_ACCESS_TOKEN or authenticate via OAuth"))))),
         noTokenState) :=
  (c3_tool_error_payload idleEnv 20738 1 noTokenState "today" none).1
    401 "No access token available"
    (some (.str "Please configure OURA_ACCESS_TOKEN or authenticate via OAuth"))
    noTokenState rfl

/-- The function `send` does not touch the refresh counter. -/
theorem send_refreshAttempts (env : HttpEnv) (st : ClientState) (req : RequestData) :
    (send env st req).2.refreshAttempts = st.refreshAttempts := rfl

/-- The function `send` does not touch the headers source (config and override token). -/
theorem getHeaders_send (env : HttpEnv) (st : ClientState) (req : RequestData) :
    getHeaders (send env st req).2 = getHeaders st := rfl

/-- Every invocation of `refresh_access_token` bumps the ghost counter by
exactly one, whatever its outcome. -/
theorem refreshAccessToken_attempts (env : HttpEnv) (st : ClientState) :
    (refreshAccessToken env st).2.refreshAttempts = st.refreshAttempts + 1 := by
  unfold refreshAccessToken
  simp only [send]
  split
  · rfl
  · split
    · rfl
    · rcases henv : env st.calls (refreshRequest st.config) with r | msg
      · simp only [henv]
        by_cases h200 : r.status_code = 200
        · rcases hb : r.jsonBody with _ | v
          · simp [h200, hb]
          · rcases v with _ | b | n | s | l | fs
            · simp [h200, hb]
            · simp [h200, hb]
            · simp [h200, hb]
            · simp [h200, hb]
            · simp [h200, hb]
            · simp only [h200, hb]
              split
              · rcases hw : st.tokenFileWrite with u | m <;>
                  simp only [saveTokens, hw] <;> split <;> rfl
              · simp
        · simp [h200]
      · simp [henv]

/-- A call with the retry flag off never invokes the refresh. -/
theorem requestNoRetry_refreshAttempts (env : HttpEnv) (st : ClientState)
    (m e : String) (p : List (String × JsonVal)) :
    (requestNoRetry env st m e p).2.refreshAttempts = st.refreshAttempts := by
  unfold requestNoRetry
  rcases hh : getHeaders st with e' | hdrs
  · simp [hh]
  · simp only [hh, send]
    rcases henv : env st.calls (apiRequest m e p hdrs) with r | msg <;>
      simp [henv]

/-- At most one refresh is attempted per logical `_request` call: with the
retry flag the counter grows by at most one, without it not at all. -/
theorem request_refresh_bound (env : HttpEnv) (st : ClientState) (m e : String)
    (p : List (String × JsonVal)) (retry : Bool) :
    (request env st m e p retry).2.refreshAttempts
      ≤ st.refreshAttempts + (if retry then 1 else 0) := by
  cases retry with
  | false =>
    simp [request, requestNoRetry_refreshAttempts]
  | true =>
    simp only [request, if_true]
    unfold requestRetry
    rcases hh : getHeaders st with e' | hdrs
    · simp [hh]
    · simp only [hh, send]
      rcases henv : env st.calls (apiRequest m e p hdrs) with r | msg
      · simp only [henv]
        by_cases h401 : r.status_code = 401
        · simp only [h401, if_pos]
          rcases hr : refreshAccessToken env
            { st with calls := st.calls + 1,
                      requestLog := st.requestLog ++ [apiRequest m e p hdrs] }
            with ⟨b, st2⟩
          have hatt := refreshAccessToken_attempts env
            { st with calls := st.calls + 1,
                      requestLog := st.requestLog ++ [apiRequest m e p hdrs] }
          rw [hr] at hatt
          simp only [ClientState.refreshAttempts] at hatt
          cases b
          · simp only [hr]
            simp
            omega
          · simp only [hr, requestNoRetry_refreshAttempts]
            simp
            omega
        · simp [h401]
      · simp [henv]

/-- Unfolding step: a flag-off call that reaches a response `r` returns
`errorOrBody r` with the post-send state. -/
theorem requestNoRetry_step (env : HttpEnv) (st : ClientState) (m e : String)
    (p : List (String × JsonVal)) (hdrs : List (String × String)) (r : HttpResponse)
    (hh : getHeaders st = .ok hdrs)
    (h1 : env st.calls (apiRequest m e p hdrs) = .resp r) :
    requestNoRetry env st m e p
      = (errorOrBody r, (send env st (apiRequest m e p hdrs)).2) := by
  unfold requestNoRetry
  simp [send, hh, h1]

/-- Unfolding step: a flag-on call whose first response is a 401 reduces to
the refresh decision: on refresh success the request is re-issued once with
the flag off, on refresh failure the original 401 goes to the generic error
handling. -/
theorem requestRetry_401_step (env : HttpEnv) (st : ClientState) (m e : String)
    (p : List (String × JsonVal)) (hdrs : List (String × String)) (r1 : HttpResponse)
    (hh : getHeaders st = .ok hdrs)
    (h1 : env st.calls (apiRequest m e p hdrs) = .resp r1)
    (h401 : r1.status_code = 401) :
    requestRetry env st m e p
      = (match refreshAccessToken env (send env st (apiRequest m e p hdrs)).2 with
         | (true, st2) => requestNoRetry env st2 m e p
         | (false, st2) => (errorOrBody r1, st2)) := by
  unfold requestRetry
  simp [send, hh, h1, h401]

/-- Unfolding step: a flag-on call whose response is not a 401 never touches
the refresh path. -/
theorem requestRetry_no401_step (env : HttpEnv) (st : ClientState) (m e : String)
    (p : List (String × JsonVal)) (hdrs : List (String × String)) (r : HttpResponse)
    (hh : getHeaders st = .ok hdrs)
    (h1 : env st.calls (apiRequest m e p hdrs) = .resp r)
    (hn401 : r.status_code ≠ 401) :
    requestRetry env st m e p
      = (errorOrBody r, (send env st (apiRequest m e p hdrs)).2) := by
  unfold requestRetry
  simp [send, hh, h1, hn401]

/-- C1: per logical forwarder call at most one refresh is attempted.  When
the first response is a 401 and the retry flag is on: if `refresh()`
succeeds the request is re-issued exactly once with the flag off (and the
refresh counter grows by exactly one); if the re-issued request also
returns a 401, the call fails with the upstream error of that second 401
and no second refresh happens; if `refresh()` fails, the call falls
through to the generic error handling of the original 401.  The final
conjunct bounds the refresh count of every call by one (zero with the flag
off). -/
theorem c1_refresh_retry (env : HttpEnv) (st : ClientState)
    (method endpoint : String) (params : List (String × JsonVal))
    (hdrs : List (String × String)) (r1 : HttpResponse)
    (hh : getHeaders st = .ok hdrs)
    (h1 : env st.calls (apiRequest method endpoint params hdrs) = .resp r1)
    (h401 : r1.status_code = 401) :
    (∀ st2, refreshAccessToken env
        (send env st (apiRequest method endpoint params hdrs)).2 = (true, st2) →
      request env st method endpoint params true
          = requestNoRetry env st2 method endpoint params
      ∧ (requestNoRetry env st2 method endpoint params).2.refreshAttempts
          = st.refreshAttempts + 1)
    ∧ (∀ st2, refreshAccessToken env
        (send env st (apiRequest method endpoint params hdrs)).2 = (false, st2) →
      request env st method endpoint params true
          = (.error (handleErrorResponse r1), st2))
    ∧ (∀ st2 hdrs2 r2, refreshAccessToken env
          (send env st (apiRequest method endpoint params hdrs)).2 = (true, st2) →
        getHeaders st2 = .ok hdrs2 →
        env st2.calls (apiRequest method endpoint params hdrs2) = .resp r2 →
        r2.status_code = 401 →
        (request env st method endpoint params true).1
            = .error (handleErrorResponse r2)
        ∧ (request env st method endpoint params true).2.refreshAttempts
            = st.refreshAttempts + 1)
    ∧ (∀ (env' : HttpEnv) (st' : ClientState) (m' e' : String)
          (p' : List (String × JsonVal)) (retry' : Bool),
        (request env' st' m' e' p' retry').2.refreshAttempts
          ≤ st'.refreshAttempts + (if retry' then 1 else 0)) := by
  have hreq : request env st method endpoint params true
      = requestRetry env st method endpoint params := rfl
  have hstep := requestRetry_401_step env st method endpoint params hdrs r1 hh h1 h401
  have hattBase := refreshAccessToken_attempts env
    (send env st (apiRequest method endpoint params hdrs)).2
  refine ⟨fun st2 htrue => ?_, fun st2 hfalse => ?_,
      fun st2 hdrs2 r2 htrue hh2 henv2 h401b => ?_,
      fun env' st' m' e' p' retry' => request_refresh_bound env' st' m' e' p' retry'⟩
  · rw [htrue] at hstep hattBase
    refine ⟨hreq.trans hstep, ?_⟩
    rw [requestNoRetry_refreshAttempts]
    rw [send_refreshAttempts] at hattBase
    exact hattBase
  · rw [hfalse] at hstep
    rw [hreq, hstep]
    simp [errorOrBody, h401]
  · rw [htrue] at hstep hattBase
    rw [send_refreshAttempts] at hattBase
    have hnr := requestNoRetry_step env st2 method endpoint params hdrs2 r2 hh2 henv2
    constructor
    · rw [hreq, hstep]
      simp [hnr, errorOrBody, h401b]
    · rw [hreq, hstep]
      simp only [hnr, send_refreshAttempts]
      exact hattBase

/-- First 401 of the C1 scenario. -/
def r401a : HttpResponse := { status_code := 401, jsonBody := some (.obj []), text := "" }

/-- Successful token-endpoint response of the C1 scenario. -/
def tokenOkResp : HttpResponse :=
  { status_code := 200,
    jsonBody := some (.obj [("access_token", .str "NEW"), ("refresh_token", .str "NEW2")]),
    text := "" }

/-- Second 401 of the C1 scenario. -/
def r401b : HttpResponse :=
  { status_code := 401, jsonBody := some (.obj [("title", .str "invalid token")]), text := "" }

/-- Upstream of the C1 scenario: 401, then a successful refresh, then 401
again. -/
def c1Env : HttpEnv := fun i _ =>
  if i = 0 then .resp r401a else if i = 1 then .resp tokenOkResp else .resp r401b

/-- Witness for C1: in the 401 / refresh-ok / 401 scenario the call fails
with the upstream error of the second 401 and exactly one refresh was
attempted. -/
theorem c1_refresh_retry_witness :
    (request c1Env (mkState oauthConfig none) "GET"
        "/v2/usercollection/daily_sleep" [] true).1
      = .error (handleErrorResponse r401b)
    ∧ (request c1Env (mkState oauthConfig none) "GET"
        "/v2/usercollection/daily_sleep" [] true).2.refreshAttempts
      = (mkState oauthConfig none).refreshAttempts + 1 :=
  (c1_refresh_retry c1Env (mkState oauthConfig none) "GET"
      "/v2/usercollection/daily_sleep" [] [("Authorization", "Bearer tok")] r401a
      rfl rfl rfl).2.2.1
    ((refreshAccessToken c1Env (send c1Env (mkState oauthConfig none)
        (apiRequest "GET" "/v2/usercollection/daily_sleep" []
          [("Authorization", "Bearer tok")])).2).2)
    [("Authorization", "Bearer NEW")] r401b rfl rfl rfl rfl

/-- Upstream for C10: answers 401 to every request whose headers carry the
override bearer token, and a successful token-refresh response to any
other request (in particular to the token-endpoint POST). -/
def tokenSensitiveEnv (ov : String) (r401 tokResp : HttpResponse) : HttpEnv :=
  fun _ req =>
    if ("Authorization", "Bearer " ++ ov) ∈ req.headers then .resp r401
    else .resp tokResp

/-- C10: a client built with a non-empty override access token sends the
override token in the Authorization header of every API request — the
original call and the retried call after a 401 with successful refresh —
so the freshly stored token (here "NEW") is never used and a 401 caused by
the override token recurs on the retry, failing the call with the second
401's upstream error after exactly one refresh. -/
theorem c10_override_token (ov : String) (hov : ov ≠ "") (cfg : OuraConfigState)
    (m e : String) (p : List (String × JsonVal))
    (hrt : truthyOpt cfg.refresh_token = true)
    (hci : truthyOpt cfg.client_id = true)
    (hcs : truthyOpt cfg.client_secret = true)
    (r401 : HttpResponse) (h401 : r401.status_code = 401)
    (tokResp : HttpResponse) (h200 : tokResp.status_code = 200)
    (hbody : tokResp.jsonBody
      = some (.obj [("access_token", .str "NEW"), ("refresh_token", .str "NEW2")])) :
    (∀ st' : ClientState, st'.overrideToken = some ov →
      getHeaders st' = .ok [("Authorization", "Bearer " ++ ov)])
    ∧ (request (tokenSensitiveEnv ov r401 tokResp) (mkState cfg (some ov)) m e p true).1
        = .error (handleErrorResponse r401)
    ∧ (request (tokenSensitiveEnv ov r401 tokResp) (mkState cfg (some ov)) m e p true).2.requestLog
        = [apiRequest m e p [("Authorization", "Bearer " ++ ov)],
           refreshRequest cfg,
           apiRequest m e p [("Authorization", "Bearer " ++ ov)]]
    ∧ (request (tokenSensitiveEnv ov r401 tokResp) (mkState cfg (some ov)) m e p true).2.refreshAttempts
        = 1
    ∧ (request (tokenSensitiveEnv ov r401 tokResp) (mkState cfg (some ov)) m e p true).2.config.access_token
        = some "NEW" := by
  have hovT : truthyOpt (some ov) = true := by
    simp [truthyOpt, hov]
  have hhead : ∀ st' : ClientState, st'.overrideToken = some ov →
      getHeaders st' = .ok [("Authorization", "Bearer " ++ ov)] := by
    intro st' ho
    simp [getHeaders, ho, hovT]
  refine ⟨hhead, ?_, ?_, ?_, ?_⟩ <;>
    simp [request, requestRetry, requestNoRetry, send, getHeaders, tokenSensitiveEnv,
      refreshAccessToken, refreshRequest, apiRequest, saveTokens, errorOrBody, mkState,
      truthyOptJson, truthy, lookupField, pyStr, hovT, hrt, hci, hcs,
      h401, h200, hbody]

/-- The 401 response of the C10 witness scenario. -/
def c10r401 : HttpResponse :=
  { status_code := 401, jsonBody := some (.obj []), text := "" }

/-- Witness for C10: with override token "OV" over the full OAuth2 config,
both API calls carry "Bearer OV", the refreshed token "NEW" is stored but
unused, and the call fails with the second 401 after one refresh. -/
theorem c10_override_token_witness :
    (request (tokenSensitiveEnv "OV" c10r401 tokenOkResp)
        (mkState oauthConfig (some "OV")) "GET" "/v2/usercollection/workout" [] true).1
      = .error (handleErrorResponse c10r401)
    ∧ (request (tokenSensitiveEnv "OV" c10r401 tokenOkResp)
        (mkState oauthConfig (some "OV")) "GET" "/v2/usercollection/workout" [] true).2.requestLog
      = [apiRequest "GET" "/v2/usercollection/workout" [] [("Authorization", "Bearer " ++ "OV")],
         refreshRequest oauthConfig,
         apiRequest "GET" "/v2/usercollection/workout" [] [("Authorization", "Bearer " ++ "OV")]]
    ∧ (request (tokenSensitiveEnv "OV" c10r401 tokenOkResp)
        (mkState oauthConfig (some "OV")) "GET" "/v2/usercollection/workout" [] true).2.refreshAttempts
      = 1
    ∧ (request (tokenSensitiveEnv "OV" c10r401 tokenOkResp)
        (mkState oauthConfig (some "OV")) "GET" "/v2/usercollection/workout" [] true).2.config.access_token
      = some "NEW" := by
  have h := c10_override_token "OV" (by decide) oauthConfig "GET"
    "/v2/usercollection/workout" [] (by decide) (by decide) (by decide)
    c10r401 rfl tokenOkResp rfl rfl
  exact ⟨h.2.1, h.2.2.1, h.2.2.2.1, h.2.2.2.2⟩

/-- The function `send` advances the call counter by one. -/
theorem send_calls (env : HttpEnv) (st : ClientState) (req : RequestData) :
    (send env st req).2.calls = st.calls + 1 := rfl

/-- Unfolding step: a 200 response with a JSON body returns that body. -/
theorem request_ok_step (env : HttpEnv) (st : ClientState) (m e : String)
    (p : List (String × JsonVal)) (hdrs : List (String × String)) (r : HttpResponse)
    (hh : getHeaders st = .ok hdrs)
    (h1 : env st.calls (apiRequest m e p hdrs) = .resp r)
    (h200 : r.status_code = 200) (v : JsonVal) (hv : r.jsonBody = some v) :
    request env st m e p true = (.ok v, (send env st (apiRequest m e p hdrs)).2) := by
  have hq : request env st m e p true = requestRetry env st m e p := rfl
  rw [hq, requestRetry_no401_step env st m e p hdrs r hh h1 (by rw [h200]; decide)]
  simp [errorOrBody, h200, hv]

/-- The JSON object fields of a paginated page: a `data` array and, when a
cursor is present, a `next_token` string. -/
def pageFields (data : List JsonVal) (tok : Option String) : List (String × JsonVal) :=
  ("data", .arr data)
    :: (match tok with | some t => [("next_token", .str t)] | none => [])

/-- A 200 page response of the paginated upstream. -/
def mkPage (data : List JsonVal) (tok : Option String) : HttpResponse :=
  { status_code := 200, jsonBody := some (.obj (pageFields data tok)), text := "" }

/-- The pagination loop over a chain of pages: the pages of `mids` are
served with their non-empty `next_token`s, then one final page `lastData`
whose token is absent or empty.  The loop returns the accumulator extended
with all pages' data in order. -/
theorem paginate_chain (env : HttpEnv) (endpoint : String)
    (mids : List (List JsonVal × String)) :
    ∀ (lastData : List JsonVal) (lastTok : Option String) (fuel : Nat)
      (st : ClientState) (params : List (String × JsonVal)) (acc : List JsonVal)
      (hdrs : List (String × String)),
      getHeaders st = .ok hdrs →
      (∀ x ∈ mids, x.2 ≠ "") →
      (lastTok = none ∨ lastTok = some "") →
      (∀ i req, i < mids.length →
        env (st.calls + i) req
          = .resp (mkPage (mids.getD i ([], "")).1 (some (mids.getD i ([], "")).2))) →
      (∀ req, env (st.calls + mids.length) req = .resp (mkPage lastData lastTok)) →
      mids.length + 1 ≤ fuel →
      (paginateLoop env endpoint fuel st params acc).1
        = some (.ok (acc ++ (mids.map Prod.fst).flatten ++ lastData)) := by
  induction mids with
  | nil =>
    intro lastData lastTok fuel st params acc hdrs hh hmids hlast henv henvLast hfuel
    cases fuel with
    | zero => omega
    | succ f =>
      have hr := request_ok_step env st "GET" endpoint params hdrs
        (mkPage lastData lastTok) hh
        (by simpa using henvLast (apiRequest "GET" endpoint params hdrs))
        rfl (.obj (pageFields lastData lastTok)) rfl
      rcases hlast with h | h <;> subst h <;>
        simp [paginateLoop, hr, pageFields, lookupField, pyExtendItems, truthy]
  | cons hd rest ih =>
    intro lastData lastTok fuel st params acc hdrs hh hmids hlast henv henvLast hfuel
    obtain ⟨d, t⟩ := hd
    cases fuel with
    | zero =>
      simp only [List.length_cons] at hfuel
      omega
    | succ f =>
      have henv0 := henv 0 (apiRequest "GET" endpoint params hdrs) (by simp)
      have hr := request_ok_step env st "GET" endpoint params hdrs
        (mkPage d (some t)) hh (by simpa using henv0)
        rfl (.obj (pageFields d (some t))) rfl
      have htne : t ≠ "" := hmids (d, t) (by simp)
      have hstep := ih lastData lastTok f
        (send env st (apiRequest "GET" endpoint params hdrs)).2
        (setParam params "next_token" (.str t)) (acc ++ d) hdrs
        (by rw [getHeaders_send]; exact hh)
        (fun x hx => hmids x (List.mem_cons_of_mem _ hx))
        hlast
        (fun i req hi => by
          have h' := henv (i + 1) req (by simpa using Nat.succ_lt_succ hi)
          rw [send_calls]
          have harith : st.calls + 1 + i = st.calls + (i + 1) := by omega
          rw [harith, h']
          simp)
        (fun req => by
          have h' := henvLast req
          rw [send_calls]
          have harith : st.calls + 1 + rest.length
              = st.calls + (rest.length + 1) := by omega
          rw [harith]
          simpa using h')
        (by simp only [List.length_cons] at hfuel; omega)
      simp only [paginateLoop, hr]
      simpa [pageFields, lookupField, pyExtendItems, truthy, htne,
        List.append_assoc] using hstep

/-- C2: for every chain of page responses in which every page except the
last carries a non-empty `next_token` (the last has none or an empty one),
`_handle_pagination` — given at least one unit of fuel per page; the source
loop is unbounded — issues the GET requests in order and returns the
concatenation of every page's `data` array in page order. -/
theorem c2_pagination (env : HttpEnv) (st : ClientState) (endpoint : String)
    (params : List (String × JsonVal)) (hdrs : List (String × String))
    (mids : List (List JsonVal × String)) (lastData : List JsonVal)
    (lastTok : Option String) (fuel : Nat)
    (hh : getHeaders st = .ok hdrs)
    (hmids : ∀ x ∈ mids, x.2 ≠ "")
    (hlast : lastTok = none ∨ lastTok = some "")
    (henv : ∀ i req, i < mids.length →
      env (st.calls + i) req
        = .resp (mkPage (mids.getD i ([], "")).1 (some (mids.getD i ([], "")).2)))
    (henvLast : ∀ req, env (st.calls + mids.length) req = .resp (mkPage lastData lastTok))
    (hfuel : mids.length + 1 ≤ fuel) :
    (handlePagination env st endpoint (some params) fuel).1
      = some (.ok ((mids.map Prod.fst).flatten ++ lastData)) := by
  have h := paginate_chain env endpoint mids lastData lastTok fuel st params [] hdrs
    hh hmids hlast henv henvLast hfuel
  simpa [handlePagination] using h

/-- Upstream of the C2 witness: three pages, with cursors on the first
two. -/
def c2Env : HttpEnv := fun i _ =>
  if i = 0 then .resp (mkPage [.str "a1", .str "a2"] (some "t1"))
  else if i = 1 then .resp (mkPage [.str "b1"] (some "t2"))
  else .resp (mkPage [.str "c1"] none)

/-- Witness for C2: three synthetic pages (cursors on pages 1 and 2, none
on page 3) produce the concatenation of the three `data` arrays in page
order. -/
theorem c2_pagination_witness :
    (handlePagination c2Env (mkState patConfig none) "/v2/usercollection/daily_sleep"
        (some [("start_date", .str "2026-10-01")]) 3).1
      = some (.ok [.str "a1", .str "a2", .str "b1", .str "c1"]) := by
  have h := c2_pagination c2Env (mkState patConfig none)
    "/v2/usercollection/daily_sleep" [("start_date", .str "2026-10-01")]
    [("Authorization", "Bearer tok")]
    [([.str "a1", .str "a2"], "t1"), ([.str "b1"], "t2")] [.str "c1"] none 3
    rfl (by decide) (Or.inl rfl)
    (fun i req hi => by
      match i, hi with
      | 0, _ => rfl
      | 1, _ => rfl)
    (fun req => rfl)
    (by decide)
  simpa using h

end Oura
